import Mathlib

/-!
Shallow embedding of src/app.py (AI-QA-Bot): a webhook handler that
downloads a call recording, transcribes it, scores it via a language
model, parses the score/feedback, and persists a transcript file, a
per-call JSON assessment record, and a row appended to a cumulative
Excel report.

External collaborators (the HTTP client, the speech and chat providers,
json.loads of the Python standard library, and the wall clock) are
modelled as oracles collected in an `Env` record; the filesystem is an
explicit state threaded through the stages.  Each Lean definition below
is translated from the like-named Python function in src/app.py.
-/

namespace AIQABot

/-- JSON values, as produced by json.loads and consumed by json.dump.
Numbers are modelled as integers (every numeric literal the claims touch
is an integer). -/
inductive Json where
  | null : Json
  | bool (b : Bool) : Json
  | num (n : Int) : Json
  | str (s : String) : Json
  | arr (xs : List Json) : Json
  | obj (kvs : List (String × Json)) : Json

/-- One row of the cumulative QA report, mirroring the dict literal built
in update_excel (src/app.py lines 79 to 86). -/
structure ReportRow where
  date : String
  callId : String
  agentName : String
  score : Json
  feedback : Json
  transcriptFile : String

/-- Contents a file on disk can hold in this model: raw audio bytes, plain
text, a JSON document, or an Excel sheet (a column list plus rows). -/
inductive FileData where
  | audio (bytes : List Nat) : FileData
  | text (s : String) : FileData
  | jsonFile (j : Json) : FileData
  | excel (columns : List String) (rows : List ReportRow) : FileData

/-- The filesystem: a partial map from paths to file contents, plus the
set of directories that exist (os.makedirs targets). -/
structure FS where
  files : String → Option FileData
  dirs : String → Bool

def FS.empty : FS := ⟨fun _ => none, fun _ => false⟩

/-- Write (or overwrite) the file at path p. -/
def FS.writeFile (fs : FS) (p : String) (d : FileData) : FS :=
  ⟨fun q => if q = p then some d else fs.files q, fs.dirs⟩

/-- os.makedirs(d, exist_ok=True): idempotent directory creation. -/
def FS.mkdirs (fs : FS) (d : String) : FS :=
  ⟨fs.files, fun q => if q = d then true else fs.dirs q⟩

def FS.read (fs : FS) (p : String) : Option FileData := fs.files p

/-- An HTTP response as seen by requests.get: a status code and a body. -/
structure HttpResp where
  status : Nat
  body : List Nat

/-- The external world: requests.get, the Whisper transcription provider,
the chat-completion provider (applied to the full prompt), json.loads,
and the two datetime.now() format strings used by the code. -/
structure Env where
  http_get : String → HttpResp
  whisper : List Nat → Except String String
  chat : String → Except String String
  loads : String → Option Json
  now_date : String
  now_hms : String

/-- The inbound webhook payload: data.get("call_id"), data.get("agent_name"),
data.get("recording_url").  `none` covers both an absent key and a JSON null
value (both make Python's dict.get return None). -/
structure Event where
  call_id : Option String
  agent_name : Option String
  recording_url : Option String

def audioPath (call_id : String) : String := "recordings/" ++ call_id ++ ".mp3"

def transcriptPath (call_id : String) : String := "transcripts/" ++ call_id ++ ".txt"

def qaReportPath (call_id : String) : String := "qa_reports/" ++ call_id ++ ".json"

def excelPath : String := "reports/QA_Report.xlsx"

/-- download_recording (src/app.py lines 26 to 37): ensure the recordings
directory, GET the url, raise_for_status (requests raises exactly for
status codes in 400..599), then write the body to recordings/call_id.mp3.
The body is written only after raise_for_status passes, so a non-success
response never persists an audio file. -/
def download_recording (env : Env) (url call_id : String) (fs : FS) :
    Except String String × FS :=
  let fs1 := fs.mkdirs "recordings"
  let file_path := audioPath call_id
  let r := env.http_get url
  if 400 ≤ r.status ∧ r.status < 600 then
    (Except.error ("HTTP Error " ++ toString r.status ++ " for url " ++ url), fs1)
  else
    (Except.ok file_path, fs1.writeFile file_path (FileData.audio r.body))

/-- transcribe_audio (src/app.py lines 40 to 47): open the audio file and
send it to the transcription provider; opening a missing or non-audio
file raises. -/
def transcribe_audio (env : Env) (audio_file : String) (fs : FS) :
    Except String String :=
  match fs.read audio_file with
  | some (FileData.audio bytes) => env.whisper bytes
  | _ => Except.error ("No such file or directory: " ++ audio_file)

/-- The fixed instruction template of analyze_call, with the transcript
passed verbatim inside the prompt (src/app.py lines 53 to 63). -/
def analyze_prompt (transcript : String) : String :=
  "You are a call quality analyst. Analyze this conversation and give: " ++
  "Communication clarity, Empathy, Product knowledge, Professional tone. " ++
  "Provide a JSON output with score (0-100) and feedback. Transcript: " ++
  transcript

/-- analyze_call (src/app.py lines 50 to 71): one chat-completion request on
the prompt; the raw message content is returned. -/
def analyze_call (env : Env) (transcript : String) : Except String String :=
  env.chat (analyze_prompt transcript)

/-- Python dict.get k on the object produced by json.loads: the first (and in
a JSON object, only) binding of k. -/
def dictGet (kvs : List (String × Json)) (k : String) : Option Json :=
  (kvs.find? (fun kv => kv.1 = k)).map (fun kv => kv.2)

/-- Step 4 of the handler (src/app.py lines 137 to 143): try json.loads on the
assessor output and read score and feedback with defaults; the bare except
also catches the AttributeError raised by .get when the decoded value is not
a dict, so every non-object outcome falls back to score N/A and
feedback equal to the raw text. -/
def parse_analysis (loads : String → Option Json) (analysis : String) :
    Json × Json :=
  match loads analysis with
  | some (Json.obj kvs) =>
      ((dictGet kvs "score").getD (Json.str "N/A"),
       (dictGet kvs "feedback").getD (Json.str ""))
  | _ => (Json.str "N/A", Json.str analysis)

/-- The column order of the DataFrame dict literal in update_excel
(src/app.py lines 79 to 86); Python dicts preserve insertion order and
pandas takes column order from it. -/
def reportColumns : List String :=
  ["Date", "Call ID", "Agent Name", "Score", "Feedback", "Transcript File"]

/-- update_excel (src/app.py lines 74 to 95): ensure the reports directory,
build the one-row frame, and either concat onto the existing sheet (pandas
keeps the existing columns first, then appends any new column names) or
start a fresh sheet; pd.read_excel raises if the existing file is not a
spreadsheet.  `now` stands for datetime.now().strftime of the date format. -/
def update_excel (now call_id agent_name : String) (score feedback : Json)
    (transcript_path : String) (fs : FS) : Except String FS :=
  let fs1 := fs.mkdirs "reports"
  let row : ReportRow := ⟨now, call_id, agent_name, score, feedback, transcript_path⟩
  match fs1.read excelPath with
  | some (FileData.excel cols rows) =>
      let cols1 := cols ++ reportColumns.filter (fun c => !(decide (c ∈ cols)))
      Except.ok (fs1.writeFile excelPath (FileData.excel cols1 (rows ++ [row])))
  | some _ => Except.error "Excel file format cannot be determined"
  | none => Except.ok (fs1.writeFile excelPath (FileData.excel reportColumns [row]))

/-- An HTTP response of the Flask handler: status code and JSON body. -/
structure Response where
  status : Nat
  body : Json

def missingUrlResponse : Response :=
  ⟨400, Json.obj [("error", Json.str "Missing recording_url")]⟩

def errorResponse (msg : String) : Response :=
  ⟨500, Json.obj [("error", Json.str msg)]⟩

def successResponse (call_id : String) (score feedback : Json) : Response :=
  ⟨200, Json.obj [("status", Json.str "success"), ("call_id", Json.str call_id),
                  ("score", score), ("feedback", feedback)]⟩

/-- handle_callyzer_webhook (src/app.py lines 113 to 164): validate, then run
download, transcription, assessment, parse, and the three persistence steps
in order; any stage failure is caught by the top-level try and turned into a
500 response carrying the message, with whatever artifacts were already
written left in place. -/
def handle_callyzer_webhook (env : Env) (data : Event) (fs : FS) :
    Response × FS :=
  let call_id := data.call_id.getD ("call_" ++ env.now_hms)
  let agent_name := data.agent_name.getD "Unknown Agent"
  match data.recording_url with
  | none => (missingUrlResponse, fs)
  | some url =>
    if url = "" then (missingUrlResponse, fs)
    else
      match download_recording env url call_id fs with
      | (Except.error e, fs1) => (errorResponse e, fs1)
      | (Except.ok audio_file, fs1) =>
        match transcribe_audio env audio_file fs1 with
        | Except.error e => (errorResponse e, fs1)
        | Except.ok transcript_text =>
          match analyze_call env transcript_text with
          | Except.error e => (errorResponse e, fs1)
          | Except.ok analysis =>
            let sf := parse_analysis env.loads analysis
            let fs2 := (fs1.mkdirs "transcripts").writeFile
              (transcriptPath call_id) (FileData.text transcript_text)
            let fs3 := (fs2.mkdirs "qa_reports").writeFile
              (qaReportPath call_id)
              (FileData.jsonFile (Json.obj [("score", sf.1), ("feedback", sf.2)]))
            match update_excel env.now_date call_id agent_name sf.1 sf.2
                (transcriptPath call_id) fs3 with
            | Except.error e => (errorResponse e, fs3)
            | Except.ok fs4 =>
              (successResponse call_id sf.1 sf.2, fs4)

/-- The rows of the cumulative report as stored on disk (empty when the
report file is absent or unreadable). -/
def reportRows (fs : FS) : List ReportRow :=
  match fs.read excelPath with
  | some (FileData.excel _ rows) => rows
  | _ => []

/-- The call identifier the handler settles on: the supplied one, or the
time-based placeholder. -/
def callIdOf (env : Env) (ev : Event) : String :=
  ev.call_id.getD ("call_" ++ env.now_hms)

/-- The agent name the handler settles on. -/
def agentOf (ev : Event) : String :=
  ev.agent_name.getD "Unknown Agent"

/-- The column list update_excel leaves behind when appending onto a sheet
that had the columns `cols` (the existing columns first, then any report
column not already present). -/
def appendedCols (cols : List String) : List String :=
  cols ++ reportColumns.filter (fun c => !(decide (c ∈ cols)))

/-- The filesystem update_excel produces when appending the row `r` onto a
report that held the columns `cols` and the rows `rows`. -/
def appendedFS (fs : FS) (cols : List String) (rows : List ReportRow)
    (r : ReportRow) : FS :=
  (fs.mkdirs "reports").writeFile excelPath
    (FileData.excel (appendedCols cols) (rows ++ [r]))

/-- A concrete environment in which every external call succeeds and the
assessor output is not JSON. -/
def okEnv : Env where
  http_get := fun _ => ⟨200, [7, 7, 7]⟩
  whisper := fun _ => Except.ok "hello world"
  chat := fun _ => Except.ok "great call"
  loads := fun _ => none
  now_date := "2025-01-01 10:00:00"
  now_hms := "100000"

/-- okEnv, except that the assessor output decodes to a JSON object with a
score of 87 and the feedback Good empathy. -/
def jsonEnv : Env :=
  { okEnv with
    loads := fun s =>
      if s = "great call" then
        some (Json.obj [("score", Json.num 87),
                        ("feedback", Json.str "Good empathy")])
      else none }

/-- okEnv, except that the assessment provider fails. -/
def chatFailEnv : Env :=
  { okEnv with chat := fun _ => Except.error "assessment provider down" }

/-- okEnv, except that the recording download returns HTTP 404. -/
def httpFailEnv : Env :=
  { okEnv with http_get := fun _ => ⟨404, [1]⟩ }

/-- okEnv, except that the transcription provider fails. -/
def whisperFailEnv : Env :=
  { okEnv with whisper := fun _ => Except.error "whisper down" }

/-- A filesystem whose report path holds a non-spreadsheet file, making
pd.read_excel (and hence the report append) fail. -/
def corruptFS : FS :=
  FS.empty.writeFile excelPath (FileData.text "junk")

/-- A concrete valid webhook event. -/
def okEvent : Event := ⟨some "c1", some "Alice", some "http://host/rec"⟩

/-- A concrete pre-existing report row. -/
def row0 : ReportRow :=
  ⟨"2024-12-31 09:00:00", "c0", "Bob", Json.num 50, Json.str "ok",
   "transcripts/c0.txt"⟩

/-- Concrete rows for the calls with identifiers A and B. -/
def rowA : ReportRow :=
  ⟨"2025-01-01 10:00:00", "A", "Alice", Json.num 80, Json.str "good",
   "transcripts/A.txt"⟩

def rowB : ReportRow :=
  ⟨"2025-01-01 11:00:00", "B", "Bob", Json.num 60, Json.str "fair",
   "transcripts/B.txt"⟩

/-- A filesystem already holding a one-row report. -/
def seededFS : FS :=
  FS.empty.writeFile excelPath (FileData.excel reportColumns [row0])

/-! Basic laws of the filesystem model. -/

theorem read_writeFile (fs : FS) (p q : String) (d : FileData) :
    (fs.writeFile p d).read q = if q = p then some d else fs.read q := rfl

theorem read_writeFile_self (fs : FS) (p : String) (d : FileData) :
    (fs.writeFile p d).read p = some d := by
  rw [read_writeFile, if_pos rfl]

theorem read_writeFile_ne (fs : FS) (p q : String) (d : FileData) (h : q ≠ p) :
    (fs.writeFile p d).read q = fs.read q := by
  rw [read_writeFile, if_neg h]

theorem read_mkdirs (fs : FS) (d q : String) :
    (fs.mkdirs d).read q = fs.read q := rfl

theorem files_mkdirs (fs : FS) (d : String) :
    (fs.mkdirs d).files = fs.files := rfl

/-! The four artifact paths are pairwise distinct, whatever the call
identifiers: each pair of path templates already differs within the
constant leading directory name. -/

theorem string_ne_of_get (a b : String) (n : Nat) (c d : Char)
    (ha : a.data.get? n = some c) (hb : b.data.get? n = some d)
    (hcd : c ≠ d) : a ≠ b := by
  intro h
  rw [h, hb] at ha
  exact hcd (Option.some.inj ha.symm)

theorem transcriptPath_ne_audioPath (x y : String) :
    transcriptPath x ≠ audioPath y :=
  string_ne_of_get _ _ 0 't' 'r' rfl rfl (by decide)

theorem transcriptPath_ne_qaReportPath (x y : String) :
    transcriptPath x ≠ qaReportPath y :=
  string_ne_of_get _ _ 0 't' 'q' rfl rfl (by decide)

theorem transcriptPath_ne_excelPath (x : String) :
    transcriptPath x ≠ excelPath :=
  string_ne_of_get _ _ 0 't' 'r' rfl rfl (by decide)

theorem qaReportPath_ne_audioPath (x y : String) :
    qaReportPath x ≠ audioPath y :=
  string_ne_of_get _ _ 0 'q' 'r' rfl rfl (by decide)

theorem qaReportPath_ne_excelPath (x : String) :
    qaReportPath x ≠ excelPath :=
  string_ne_of_get _ _ 0 'q' 'r' rfl rfl (by decide)

theorem audioPath_ne_excelPath (x : String) :
    audioPath x ≠ excelPath :=
  string_ne_of_get _ _ 2 'c' 'p' rfl rfl (by decide)

/-- Characterization of a fully successful run of the handler: when the url
is present and non-empty, the download succeeds, the transcription and the
assessment succeed, and the prior report file (if any) is a spreadsheet,
the handler returns the success response and the final filesystem is the
initial one with the recordings, transcripts, qa_reports and reports
directories ensured, the four artifacts written, and one row appended to
the previous report rows. -/
theorem handle_ok_run (env : Env) (ev : Event) (fs : FS) (url cid ag t a : String)
    (hcid : callIdOf env ev = cid) (hag : agentOf ev = ag)
    (hurl : ev.recording_url = some url) (hne : url ≠ "")
    (hhttp : ¬(400 ≤ (env.http_get url).status ∧ (env.http_get url).status < 600))
    (hw : env.whisper (env.http_get url).body = Except.ok t)
    (hc : env.chat (analyze_prompt t) = Except.ok a)
    (hx : fs.read excelPath = none ∨
          ∃ cols rows, fs.read excelPath = some (FileData.excel cols rows)) :
    ∃ cols2,
      handle_callyzer_webhook env ev fs =
        (successResponse cid (parse_analysis env.loads a).1
            (parse_analysis env.loads a).2,
         (((((((fs.mkdirs "recordings").writeFile (audioPath cid)
                  (FileData.audio (env.http_get url).body)).mkdirs
                "transcripts").writeFile (transcriptPath cid)
               (FileData.text t)).mkdirs "qa_reports").writeFile
             (qaReportPath cid)
             (FileData.jsonFile (Json.obj
               [("score", (parse_analysis env.loads a).1),
                ("feedback", (parse_analysis env.loads a).2)]))).mkdirs
           "reports").writeFile excelPath
          (FileData.excel cols2 (reportRows fs ++
            [⟨env.now_date, cid, ag, (parse_analysis env.loads a).1,
              (parse_analysis env.loads a).2, transcriptPath cid⟩]))) := by
  simp only [callIdOf] at hcid
  simp only [agentOf] at hag
  rcases hx with hx | ⟨cols, rows, hx⟩
  · refine ⟨reportColumns, ?_⟩
    simp only [handle_callyzer_webhook, download_recording, transcribe_audio,
      analyze_call, update_excel, reportRows, hurl, hcid, hag, hne, hhttp, hw, hc,
      read_mkdirs, read_writeFile, hx,
      Ne.symm (transcriptPath_ne_audioPath cid cid),
      Ne.symm (qaReportPath_ne_audioPath cid cid),
      qaReportPath_ne_audioPath cid cid,
      Ne.symm (transcriptPath_ne_qaReportPath cid cid),
      Ne.symm (audioPath_ne_excelPath cid),
      Ne.symm (transcriptPath_ne_excelPath cid),
      Ne.symm (qaReportPath_ne_excelPath cid),
      if_true, if_false, ite_true, ite_false, eq_self_iff_true,
      List.nil_append]
  · refine ⟨cols ++ reportColumns.filter (fun c => !(decide (c ∈ cols))), ?_⟩
    simp only [handle_callyzer_webhook, download_recording, transcribe_audio,
      analyze_call, update_excel, reportRows, hurl, hcid, hag, hne, hhttp, hw, hc,
      read_mkdirs, read_writeFile, hx,
      Ne.symm (transcriptPath_ne_audioPath cid cid),
      Ne.symm (qaReportPath_ne_audioPath cid cid),
      qaReportPath_ne_audioPath cid cid,
      Ne.symm (transcriptPath_ne_qaReportPath cid cid),
      Ne.symm (audioPath_ne_excelPath cid),
      Ne.symm (transcriptPath_ne_excelPath cid),
      Ne.symm (qaReportPath_ne_excelPath cid),
      if_true, if_false, ite_true, ite_false, eq_self_iff_true,
      List.nil_append]

/-- Observable consequences of a fully successful run: the success
response, the three per-call artifacts on disk, the report extended by
exactly the one new row, and every other path untouched. -/
theorem run_facts (env : Env) (ev : Event) (fs : FS) (url cid ag t a : String)
    (hcid : callIdOf env ev = cid) (hag : agentOf ev = ag)
    (hurl : ev.recording_url = some url) (hne : url ≠ "")
    (hhttp : ¬(400 ≤ (env.http_get url).status ∧ (env.http_get url).status < 600))
    (hw : env.whisper (env.http_get url).body = Except.ok t)
    (hc : env.chat (analyze_prompt t) = Except.ok a)
    (hx : fs.read excelPath = none ∨
          ∃ cols rows, fs.read excelPath = some (FileData.excel cols rows)) :
    (handle_callyzer_webhook env ev fs).1 =
        successResponse cid (parse_analysis env.loads a).1
          (parse_analysis env.loads a).2 ∧
    (handle_callyzer_webhook env ev fs).2.read (audioPath cid) =
        some (FileData.audio (env.http_get url).body) ∧
    (handle_callyzer_webhook env ev fs).2.read (transcriptPath cid) =
        some (FileData.text t) ∧
    (handle_callyzer_webhook env ev fs).2.read (qaReportPath cid) =
        some (FileData.jsonFile (Json.obj
          [("score", (parse_analysis env.loads a).1),
           ("feedback", (parse_analysis env.loads a).2)])) ∧
    (∃ cols2, (handle_callyzer_webhook env ev fs).2.read excelPath =
        some (FileData.excel cols2 (reportRows fs ++
          [⟨env.now_date, cid, ag, (parse_analysis env.loads a).1,
            (parse_analysis env.loads a).2, transcriptPath cid⟩]))) ∧
    reportRows (handle_callyzer_webhook env ev fs).2 =
        reportRows fs ++
          [⟨env.now_date, cid, ag, (parse_analysis env.loads a).1,
            (parse_analysis env.loads a).2, transcriptPath cid⟩] ∧
    (∀ p, p ≠ audioPath cid → p ≠ transcriptPath cid →
        p ≠ qaReportPath cid → p ≠ excelPath →
        (handle_callyzer_webhook env ev fs).2.read p = fs.read p) := by
  obtain ⟨cols2, hmain⟩ :=
    handle_ok_run env ev fs url cid ag t a hcid hag hurl hne hhttp hw hc hx
  rw [hmain]
  refine ⟨rfl, ?_, ?_, ?_, ⟨cols2, ?_⟩, ?_, ?_⟩
  · simp only [read_writeFile, read_mkdirs, audioPath_ne_excelPath cid,
      Ne.symm (qaReportPath_ne_audioPath cid cid),
      Ne.symm (transcriptPath_ne_audioPath cid cid),
      eq_self_iff_true, if_true, if_false, ite_true, ite_false]
  · simp only [read_writeFile, read_mkdirs, transcriptPath_ne_excelPath cid,
      transcriptPath_ne_qaReportPath cid cid,
      eq_self_iff_true, if_true, if_false, ite_true, ite_false]
  · simp only [read_writeFile, read_mkdirs, qaReportPath_ne_excelPath cid,
      eq_self_iff_true, if_true, if_false, ite_true, ite_false]
  · simp only [read_writeFile, read_mkdirs,
      eq_self_iff_true, if_true, ite_true]
  · simp only [reportRows, read_writeFile, read_mkdirs,
      eq_self_iff_true, if_true, ite_true]
  · intro p h1 h2 h3 h4
    simp only [read_writeFile, read_mkdirs, h1, h2, h3, h4,
      if_false, ite_false]

/-- update_excel on a filesystem whose report file is a spreadsheet
appends the one row and unions the columns. -/
theorem update_excel_existing (now cid ag : String) (s f : Json) (tp : String)
    (fs : FS) (cols : List String) (rows : List ReportRow)
    (h : fs.read excelPath = some (FileData.excel cols rows)) :
    update_excel now cid ag s f tp fs =
      Except.ok (appendedFS fs cols rows ⟨now, cid, ag, s, f, tp⟩) := by
  simp only [update_excel, appendedFS, appendedCols, read_mkdirs, h]

/-- update_excel on a filesystem with no report file starts a fresh
one-row sheet with the standard columns. -/
theorem update_excel_fresh (now cid ag : String) (s f : Json) (tp : String)
    (fs : FS) (h : fs.read excelPath = none) :
    update_excel now cid ag s f tp fs =
      Except.ok ((fs.mkdirs "reports").writeFile excelPath
        (FileData.excel reportColumns [⟨now, cid, ag, s, f, tp⟩])) := by
  simp only [update_excel, read_mkdirs, h]

theorem read_appendedFS (fs : FS) (cols : List String) (rows : List ReportRow)
    (r : ReportRow) :
    (appendedFS fs cols rows r).read excelPath =
      some (FileData.excel (appendedCols cols) (rows ++ [r])) := by
  simp only [appendedFS, read_writeFile_self]

/-! The claim theorems. -/

/-- C2: the result-parsing step is a total function by construction (it is
defined on every loads outcome and every input string, mirroring the bare
except of src/app.py line 141), and whenever the assessor output is not
decodable as JSON (json.loads fails), the resulting score is the sentinel
N/A and the resulting feedback is the entire raw assessor text verbatim. -/
theorem C2_parse_fallback_lossless (loads : String → Option Json) (s : String)
    (h : loads s = none) :
    parse_analysis loads s = (Json.str "N/A", Json.str s) := by
  simp only [parse_analysis, h]

/-- C2 witness: the fallback at a concrete non-JSON assessor output. -/
theorem C2_parse_fallback_lossless_witness :
    parse_analysis (fun _ => none) "not json at all" =
      (Json.str "N/A", Json.str "not json at all") :=
  C2_parse_fallback_lossless (fun _ => none) "not json at all" rfl

/-- C4: when recording_url is absent the handler returns the 400 response
with body error Missing recording_url, and the filesystem is returned
unchanged (no write happened); the right-hand side of the equation mentions
no oracle of the environment, so no network call is consulted either. -/
theorem C4_missing_url_rejected (env : Env) (ev : Event) (fs : FS)
    (h : ev.recording_url = none) :
    handle_callyzer_webhook env ev fs = (missingUrlResponse, fs) := by
  simp only [handle_callyzer_webhook, h]

/-- C4 witness: a concrete event with no recording_url. -/
theorem C4_missing_url_rejected_witness :
    handle_callyzer_webhook okEnv ⟨some "c1", some "Alice", none⟩ FS.empty =
      (missingUrlResponse, FS.empty) :=
  C4_missing_url_rejected okEnv ⟨some "c1", some "Alice", none⟩ FS.empty rfl

/-- C10: a recording_url that is present but equal to the empty string is
rejected exactly like an absent one (Python's falsiness test on line 124
treats the empty string as missing): same 400 response, filesystem
unchanged, no oracle consulted. -/
theorem C10_empty_url_rejected (env : Env) (ev : Event) (fs : FS)
    (h : ev.recording_url = some "") :
    handle_callyzer_webhook env ev fs = (missingUrlResponse, fs) := by
  simp only [handle_callyzer_webhook, h, eq_self_iff_true, if_true, ite_true]

/-- C10 witness: a concrete event with an empty recording_url. -/
theorem C10_empty_url_rejected_witness :
    handle_callyzer_webhook okEnv ⟨some "c2", none, some ""⟩ FS.empty =
      (missingUrlResponse, FS.empty) :=
  C10_empty_url_rejected okEnv ⟨some "c2", none, some ""⟩ FS.empty rfl

/-- C5: when the download returns a non-success status (400..599, the
range requests.raise_for_status raises on), the handler returns a 500
response and the file map is exactly the initial one: no audio body was
persisted, no transcript or assessment file was created, and the report is
unchanged. -/
theorem C5_download_failure_no_artifacts (env : Env) (ev : Event) (fs : FS)
    (url : String)
    (hurl : ev.recording_url = some url) (hne : url ≠ "")
    (hhttp : 400 ≤ (env.http_get url).status ∧ (env.http_get url).status < 600) :
    (handle_callyzer_webhook env ev fs).1.status = 500 ∧
    (handle_callyzer_webhook env ev fs).2.files = fs.files ∧
    reportRows (handle_callyzer_webhook env ev fs).2 = reportRows fs := by
  have hmain : handle_callyzer_webhook env ev fs =
      (errorResponse ("HTTP Error " ++ toString (env.http_get url).status ++
        " for url " ++ url), fs.mkdirs "recordings") := by
    simp only [handle_callyzer_webhook, download_recording, hurl, hne,
      hhttp.1, hhttp.2, and_self, true_and, and_true,
      if_true, if_false, ite_true, ite_false]
  rw [hmain]
  exact ⟨rfl, rfl, rfl⟩

/-- C5 witness: a concrete 404 download on an empty filesystem. -/
theorem C5_download_failure_no_artifacts_witness :
    (handle_callyzer_webhook httpFailEnv okEvent FS.empty).1.status = 500 ∧
    (handle_callyzer_webhook httpFailEnv okEvent FS.empty).2.files =
      FS.empty.files ∧
    reportRows (handle_callyzer_webhook httpFailEnv okEvent FS.empty).2 =
      reportRows FS.empty :=
  C5_download_failure_no_artifacts httpFailEnv okEvent FS.empty
    "http://host/rec" rfl (by decide) (by decide)

/-- C1 counterexample: with a successful download and transcription and a
failing assessment on an initially empty filesystem, the handler does
return a 500 response and the audio artifact exists, but the transcript
file does NOT exist on disk, contradicting the claim that audio and
transcript both exist at that point: src/app.py persists the transcript
(line 148) only after the assessment step (line 134) has succeeded. -/
theorem C1_assessment_failure_cex :
    (handle_callyzer_webhook chatFailEnv okEvent FS.empty).1.status = 500 ∧
    (handle_callyzer_webhook chatFailEnv okEvent FS.empty).2.read
        (audioPath "c1") = some (FileData.audio [7, 7, 7]) ∧
    (handle_callyzer_webhook chatFailEnv okEvent FS.empty).2.read
        (transcriptPath "c1") = none :=
  ⟨rfl, rfl, rfl⟩

/-- C1 amended: if the assessment stage fails after a successful download
and transcription, the handler returns the 500 response carrying the
provider failure message and at that point the audio artifact exists on
disk while no transcript file, no assessment file and no report row have
been written by this request (the transcript exists only in memory then);
more generally, every stage failure leaves at most the artifacts written
by the earlier completed stages and never appends a ReportRow.  The four
conjuncts cover, in pipeline order, a fetch failure (non-success status:
nothing written), a transcription failure (only the audio written), an
assessment failure (only the audio written), and a report-append failure
(audio, transcript and assessment file written, report unchanged). -/
theorem C1_stage_failure_artifacts :
    (∀ (env : Env) (ev : Event) (fs : FS) (url : String),
      ev.recording_url = some url → url ≠ "" →
      400 ≤ (env.http_get url).status ∧ (env.http_get url).status < 600 →
      (handle_callyzer_webhook env ev fs).1.status = 500 ∧
      (handle_callyzer_webhook env ev fs).2.files = fs.files ∧
      reportRows (handle_callyzer_webhook env ev fs).2 = reportRows fs) ∧
    (∀ (env : Env) (ev : Event) (fs : FS) (url cid msg : String),
      callIdOf env ev = cid →
      ev.recording_url = some url → url ≠ "" →
      ¬(400 ≤ (env.http_get url).status ∧ (env.http_get url).status < 600) →
      env.whisper (env.http_get url).body = Except.error msg →
      (handle_callyzer_webhook env ev fs).1 = errorResponse msg ∧
      (handle_callyzer_webhook env ev fs).2.read (audioPath cid) =
          some (FileData.audio (env.http_get url).body) ∧
      (∀ p, p ≠ audioPath cid →
          (handle_callyzer_webhook env ev fs).2.read p = fs.read p) ∧
      reportRows (handle_callyzer_webhook env ev fs).2 = reportRows fs) ∧
    (∀ (env : Env) (ev : Event) (fs : FS) (url cid t msg : String),
      callIdOf env ev = cid →
      ev.recording_url = some url → url ≠ "" →
      ¬(400 ≤ (env.http_get url).status ∧ (env.http_get url).status < 600) →
      env.whisper (env.http_get url).body = Except.ok t →
      env.chat (analyze_prompt t) = Except.error msg →
      (handle_callyzer_webhook env ev fs).1 = errorResponse msg ∧
      (handle_callyzer_webhook env ev fs).2.read (audioPath cid) =
          some (FileData.audio (env.http_get url).body) ∧
      (∀ p, p ≠ audioPath cid →
          (handle_callyzer_webhook env ev fs).2.read p = fs.read p) ∧
      reportRows (handle_callyzer_webhook env ev fs).2 = reportRows fs) ∧
    (∀ (env : Env) (ev : Event) (fs : FS) (url cid t a : String) (d : FileData),
      callIdOf env ev = cid →
      ev.recording_url = some url → url ≠ "" →
      ¬(400 ≤ (env.http_get url).status ∧ (env.http_get url).status < 600) →
      env.whisper (env.http_get url).body = Except.ok t →
      env.chat (analyze_prompt t) = Except.ok a →
      fs.read excelPath = some d →
      (∀ cols rows, d ≠ FileData.excel cols rows) →
      (handle_callyzer_webhook env ev fs).1 =
          errorResponse "Excel file format cannot be determined" ∧
      (handle_callyzer_webhook env ev fs).2.read (audioPath cid) =
          some (FileData.audio (env.http_get url).body) ∧
      (handle_callyzer_webhook env ev fs).2.read (transcriptPath cid) =
          some (FileData.text t) ∧
      (handle_callyzer_webhook env ev fs).2.read (qaReportPath cid) =
          some (FileData.jsonFile (Json.obj
            [("score", (parse_analysis env.loads a).1),
             ("feedback", (parse_analysis env.loads a).2)])) ∧
      (∀ p, p ≠ audioPath cid → p ≠ transcriptPath cid →
          p ≠ qaReportPath cid →
          (handle_callyzer_webhook env ev fs).2.read p = fs.read p) ∧
      reportRows (handle_callyzer_webhook env ev fs).2 = reportRows fs) := by
  refine ⟨?_, ?_, ?_, ?_⟩
  · intro env ev fs url hurl hne hhttp
    have hmain : handle_callyzer_webhook env ev fs =
        (errorResponse ("HTTP Error " ++ toString (env.http_get url).status ++
          " for url " ++ url), fs.mkdirs "recordings") := by
      simp only [handle_callyzer_webhook, download_recording, hurl, hne,
        hhttp.1, hhttp.2, and_self, true_and, and_true,
        if_true, if_false, ite_true, ite_false]
    rw [hmain]
    exact ⟨rfl, rfl, rfl⟩
  · intro env ev fs url cid msg hcid hurl hne hhttp hw
    simp only [callIdOf] at hcid
    have hmain : handle_callyzer_webhook env ev fs =
        (errorResponse msg,
         (fs.mkdirs "recordings").writeFile (audioPath cid)
           (FileData.audio (env.http_get url).body)) := by
      simp only [handle_callyzer_webhook, download_recording, transcribe_audio,
        hurl, hcid, hne, hhttp, hw, read_writeFile_self,
        if_true, if_false, ite_true, ite_false]
    rw [hmain]
    refine ⟨rfl, ?_, ?_, ?_⟩
    · simp only [read_writeFile, read_mkdirs, eq_self_iff_true, if_true,
        ite_true]
    · intro p hp
      simp only [read_writeFile, read_mkdirs, hp, if_false, ite_false]
    · simp only [reportRows, read_writeFile, read_mkdirs,
        Ne.symm (audioPath_ne_excelPath cid), if_false, ite_false]
  · intro env ev fs url cid t msg hcid hurl hne hhttp hw hc
    simp only [callIdOf] at hcid
    have hmain : handle_callyzer_webhook env ev fs =
        (errorResponse msg,
         (fs.mkdirs "recordings").writeFile (audioPath cid)
           (FileData.audio (env.http_get url).body)) := by
      simp only [handle_callyzer_webhook, download_recording, transcribe_audio,
        analyze_call, hurl, hcid, hne, hhttp, hw, hc, read_writeFile_self,
        if_true, if_false, ite_true, ite_false]
    rw [hmain]
    refine ⟨rfl, ?_, ?_, ?_⟩
    · simp only [read_writeFile, read_mkdirs, eq_self_iff_true, if_true,
        ite_true]
    · intro p hp
      simp only [read_writeFile, read_mkdirs, hp, if_false, ite_false]
    · simp only [reportRows, read_writeFile, read_mkdirs,
        Ne.symm (audioPath_ne_excelPath cid), if_false, ite_false]
  · intro env ev fs url cid t a d hcid hurl hne hhttp hw hc hd hno
    simp only [callIdOf] at hcid
    have hmain : handle_callyzer_webhook env ev fs =
        (errorResponse "Excel file format cannot be determined",
         ((((((fs.mkdirs "recordings").writeFile (audioPath cid)
               (FileData.audio (env.http_get url).body)).mkdirs
              "transcripts").writeFile (transcriptPath cid)
             (FileData.text t)).mkdirs "qa_reports").writeFile
           (qaReportPath cid)
           (FileData.jsonFile (Json.obj
             [("score", (parse_analysis env.loads a).1),
              ("feedback", (parse_analysis env.loads a).2)])))) := by
      rcases d with bytes | s | j | ⟨cols, rows⟩
      · simp only [handle_callyzer_webhook, download_recording,
          transcribe_audio, analyze_call, update_excel, hurl, hcid, hne,
          hhttp, hw, hc, hd, read_mkdirs, read_writeFile,
          Ne.symm (transcriptPath_ne_audioPath cid cid),
          Ne.symm (qaReportPath_ne_audioPath cid cid),
          Ne.symm (transcriptPath_ne_qaReportPath cid cid),
          Ne.symm (audioPath_ne_excelPath cid),
          Ne.symm (transcriptPath_ne_excelPath cid),
          Ne.symm (qaReportPath_ne_excelPath cid),
          if_true, if_false, ite_true, ite_false, eq_self_iff_true]
      · simp only [handle_callyzer_webhook, download_recording,
          transcribe_audio, analyze_call, update_excel, hurl, hcid, hne,
          hhttp, hw, hc, hd, read_mkdirs, read_writeFile,
          Ne.symm (transcriptPath_ne_audioPath cid cid),
          Ne.symm (qaReportPath_ne_audioPath cid cid),
          Ne.symm (transcriptPath_ne_qaReportPath cid cid),
          Ne.symm (audioPath_ne_excelPath cid),
          Ne.symm (transcriptPath_ne_excelPath cid),
          Ne.symm (qaReportPath_ne_excelPath cid),
          if_true, if_false, ite_true, ite_false, eq_self_iff_true]
      · simp only [handle_callyzer_webhook, download_recording,
          transcribe_audio, analyze_call, update_excel, hurl, hcid, hne,
          hhttp, hw, hc, hd, read_mkdirs, read_writeFile,
          Ne.symm (transcriptPath_ne_audioPath cid cid),
          Ne.symm (qaReportPath_ne_audioPath cid cid),
          Ne.symm (transcriptPath_ne_qaReportPath cid cid),
          Ne.symm (audioPath_ne_excelPath cid),
          Ne.symm (transcriptPath_ne_excelPath cid),
          Ne.symm (qaReportPath_ne_excelPath cid),
          if_true, if_false, ite_true, ite_false, eq_self_iff_true]
      · exact absurd rfl (hno cols rows)
    rw [hmain]
    refine ⟨rfl, ?_, ?_, ?_, ?_, ?_⟩
    · simp only [read_writeFile, read_mkdirs,
        Ne.symm (qaReportPath_ne_audioPath cid cid),
        Ne.symm (transcriptPath_ne_audioPath cid cid),
        eq_self_iff_true, if_true, if_false, ite_true, ite_false]
    · simp only [read_writeFile, read_mkdirs,
        transcriptPath_ne_qaReportPath cid cid,
        eq_self_iff_true, if_true, if_false, ite_true, ite_false]
    · simp only [read_writeFile, read_mkdirs, eq_self_iff_true, if_true,
        ite_true]
    · intro p h1 h2 h3
      simp only [read_writeFile, read_mkdirs, h1, h2, h3,
        if_false, ite_false]
    · simp only [reportRows, read_writeFile, read_mkdirs,
        Ne.symm (audioPath_ne_excelPath cid),
        Ne.symm (transcriptPath_ne_excelPath cid),
        Ne.symm (qaReportPath_ne_excelPath cid), if_false, ite_false]

/-- C1 witness: every failing stage exercised at a concrete input: a 404
download, a failing transcription, a failing assessment, and a report
append onto a corrupted report file; in each case the artifacts are
exactly those of the completed earlier stages and the report rows are
unchanged. -/
theorem C1_stage_failure_artifacts_witness :
    (handle_callyzer_webhook httpFailEnv okEvent FS.empty).1.status = 500 ∧
    (handle_callyzer_webhook whisperFailEnv okEvent FS.empty).1 =
        errorResponse "whisper down" ∧
    (handle_callyzer_webhook whisperFailEnv okEvent FS.empty).2.read
        (audioPath "c1") = some (FileData.audio [7, 7, 7]) ∧
    (handle_callyzer_webhook chatFailEnv okEvent FS.empty).1 =
        errorResponse "assessment provider down" ∧
    (handle_callyzer_webhook chatFailEnv okEvent FS.empty).2.read
        (audioPath "c1") = some (FileData.audio [7, 7, 7]) ∧
    (handle_callyzer_webhook okEnv okEvent corruptFS).1 =
        errorResponse "Excel file format cannot be determined" ∧
    reportRows (handle_callyzer_webhook okEnv okEvent corruptFS).2 =
        reportRows corruptFS := by
  have h1 := C1_stage_failure_artifacts.1 httpFailEnv okEvent FS.empty
    "http://host/rec" rfl (by decide) (by decide)
  have h2 := C1_stage_failure_artifacts.2.1 whisperFailEnv okEvent FS.empty
    "http://host/rec" "c1" "whisper down" rfl rfl (by decide) (by decide) rfl
  have h3 := C1_stage_failure_artifacts.2.2.1 chatFailEnv okEvent FS.empty
    "http://host/rec" "c1" "hello world" "assessment provider down"
    rfl rfl (by decide) (by decide) rfl rfl
  have h4 := C1_stage_failure_artifacts.2.2.2 okEnv okEvent corruptFS
    "http://host/rec" "c1" "hello world" "great call" (FileData.text "junk")
    rfl rfl (by decide) (by decide) rfl rfl rfl
    (fun cols rows h => FileData.noConfusion h)
  exact ⟨h1.1, h2.1, h2.2.1, h3.1, h3.2.1, h4.1, h4.2.2.2.2.2⟩

/-- C3: for every valid event with a nonempty recording url on which
download, transcription and assessment all succeed (and whose prior report
file, if present, is a spreadsheet), the handler returns the success
response and produces exactly one transcript file, one assessment file,
one new audio artifact and exactly one new report row, all keyed by the
same call identifier (the supplied one or the generated placeholder), and
touches no other path. -/
theorem C3_success_pipeline (env : Env) (ev : Event) (fs : FS)
    (url cid ag t a : String)
    (hcid : callIdOf env ev = cid) (hag : agentOf ev = ag)
    (hurl : ev.recording_url = some url) (hne : url ≠ "")
    (hhttp : ¬(400 ≤ (env.http_get url).status ∧ (env.http_get url).status < 600))
    (hw : env.whisper (env.http_get url).body = Except.ok t)
    (hc : env.chat (analyze_prompt t) = Except.ok a)
    (hx : fs.read excelPath = none ∨
          ∃ cols rows, fs.read excelPath = some (FileData.excel cols rows)) :
    (handle_callyzer_webhook env ev fs).1 =
        successResponse cid (parse_analysis env.loads a).1
          (parse_analysis env.loads a).2 ∧
    (handle_callyzer_webhook env ev fs).2.read (audioPath cid) =
        some (FileData.audio (env.http_get url).body) ∧
    (handle_callyzer_webhook env ev fs).2.read (transcriptPath cid) =
        some (FileData.text t) ∧
    (handle_callyzer_webhook env ev fs).2.read (qaReportPath cid) =
        some (FileData.jsonFile (Json.obj
          [("score", (parse_analysis env.loads a).1),
           ("feedback", (parse_analysis env.loads a).2)])) ∧
    reportRows (handle_callyzer_webhook env ev fs).2 =
        reportRows fs ++
          [⟨env.now_date, cid, ag, (parse_analysis env.loads a).1,
            (parse_analysis env.loads a).2, transcriptPath cid⟩] ∧
    (∀ p, p ≠ audioPath cid → p ≠ transcriptPath cid →
        p ≠ qaReportPath cid → p ≠ excelPath →
        (handle_callyzer_webhook env ev fs).2.read p = fs.read p) := by
  have h := run_facts env ev fs url cid ag t a hcid hag hurl hne hhttp hw hc hx
  exact ⟨h.1, h.2.1, h.2.2.1, h.2.2.2.1, h.2.2.2.2.2.1, h.2.2.2.2.2.2⟩

/-- C3 witness: the success pipeline on a concrete run from an empty
filesystem. -/
theorem C3_success_pipeline_witness :
    (handle_callyzer_webhook okEnv okEvent FS.empty).1 =
        successResponse "c1" (Json.str "N/A") (Json.str "great call") ∧
    (handle_callyzer_webhook okEnv okEvent FS.empty).2.read
        (transcriptPath "c1") = some (FileData.text "hello world") ∧
    (handle_callyzer_webhook okEnv okEvent FS.empty).2.read
        (qaReportPath "c1") = some (FileData.jsonFile (Json.obj
          [("score", Json.str "N/A"), ("feedback", Json.str "great call")])) ∧
    reportRows (handle_callyzer_webhook okEnv okEvent FS.empty).2 =
        [⟨"2025-01-01 10:00:00", "c1", "Alice", Json.str "N/A",
          Json.str "great call", transcriptPath "c1"⟩] := by
  have h := C3_success_pipeline okEnv okEvent FS.empty "http://host/rec"
    "c1" "Alice" "hello world" "great call" rfl rfl rfl (by decide) (by decide)
    rfl rfl (Or.inl rfl)
  exact ⟨h.1, h.2.2.1, h.2.2.2.1, h.2.2.2.2.1⟩

/-- C6: if the assessor output decodes to the JSON object with score 87 and
feedback Good empathy, the report row appended by a successful run carries
score 87 and feedback exactly Good empathy; and on any successful decode
of an object, an absent score key yields the sentinel N/A and an absent
feedback key yields the empty string. -/
theorem C6_decoded_assessment_values :
    (∀ (env : Env) (ev : Event) (fs : FS) (url cid ag t a : String),
      callIdOf env ev = cid → agentOf ev = ag →
      ev.recording_url = some url → url ≠ "" →
      ¬(400 ≤ (env.http_get url).status ∧ (env.http_get url).status < 600) →
      env.whisper (env.http_get url).body = Except.ok t →
      env.chat (analyze_prompt t) = Except.ok a →
      (fs.read excelPath = none ∨
        ∃ cols rows, fs.read excelPath = some (FileData.excel cols rows)) →
      env.loads a = some (Json.obj [("score", Json.num 87),
        ("feedback", Json.str "Good empathy")]) →
      reportRows (handle_callyzer_webhook env ev fs).2 =
        reportRows fs ++ [⟨env.now_date, cid, ag, Json.num 87,
          Json.str "Good empathy", transcriptPath cid⟩]) ∧
    (∀ (loads : String → Option Json) (s : String) (kvs : List (String × Json)),
      loads s = some (Json.obj kvs) → dictGet kvs "score" = none →
      (parse_analysis loads s).1 = Json.str "N/A") ∧
    (∀ (loads : String → Option Json) (s : String) (kvs : List (String × Json)),
      loads s = some (Json.obj kvs) → dictGet kvs "feedback" = none →
      (parse_analysis loads s).2 = Json.str "") := by
  refine ⟨?_, ?_, ?_⟩
  · intro env ev fs url cid ag t a hcid hag hurl hne hhttp hw hc hx hl
    have h := (run_facts env ev fs url cid ag t a
      hcid hag hurl hne hhttp hw hc hx).2.2.2.2.2.1
    have hpa : parse_analysis env.loads a =
        (Json.num 87, Json.str "Good empathy") := by
      simp [parse_analysis, hl, dictGet]
    rw [h, hpa]
  · intro loads s kvs h1 h2
    simp [parse_analysis, h1, h2]
  · intro loads s kvs h1 h2
    simp [parse_analysis, h1, h2]

/-- C6 witness: a concrete successful run whose assessor output decodes to
the object with score 87 and feedback Good empathy, plus the two default
clauses at a concrete empty object. -/
theorem C6_decoded_assessment_values_witness :
    reportRows (handle_callyzer_webhook jsonEnv okEvent FS.empty).2 =
      [⟨"2025-01-01 10:00:00", "c1", "Alice", Json.num 87,
        Json.str "Good empathy", transcriptPath "c1"⟩] ∧
    (parse_analysis (fun _ => some (Json.obj [])) "x").1 = Json.str "N/A" ∧
    (parse_analysis (fun _ => some (Json.obj [])) "x").2 = Json.str "" := by
  refine ⟨?_, ?_, ?_⟩
  · exact C6_decoded_assessment_values.1 jsonEnv okEvent FS.empty
      "http://host/rec" "c1" "Alice" "hello world" "great call"
      rfl rfl rfl (by decide) (by decide) rfl rfl (Or.inl rfl) rfl
  · exact C6_decoded_assessment_values.2.1 (fun _ => some (Json.obj [])) "x" [] rfl rfl
  · exact C6_decoded_assessment_values.2.2 (fun _ => some (Json.obj [])) "x" [] rfl rfl

/-- C7: appending the rows of two calls onto an existing report whose file
holds columns cols and N rows yields, step by step, a report of length
N + 2 in which the original rows are unchanged, in their original order
and before the two new rows; each single append keeps the prior columns as
a prefix of the column list. -/
theorem C7_report_append_two (fs : FS) (cols : List String)
    (rows : List ReportRow)
    (h : fs.read excelPath = some (FileData.excel cols rows))
    (rA rB : ReportRow) :
    update_excel rA.date rA.callId rA.agentName rA.score rA.feedback
        rA.transcriptFile fs = Except.ok (appendedFS fs cols rows rA) ∧
    update_excel rB.date rB.callId rB.agentName rB.score rB.feedback
        rB.transcriptFile (appendedFS fs cols rows rA) =
      Except.ok (appendedFS (appendedFS fs cols rows rA) (appendedCols cols)
        (rows ++ [rA]) rB) ∧
    reportRows (appendedFS fs cols rows rA) = rows ++ [rA] ∧
    reportRows (appendedFS (appendedFS fs cols rows rA) (appendedCols cols)
        (rows ++ [rA]) rB) = rows ++ [rA, rB] ∧
    (rows ++ [rA, rB]).length = rows.length + 2 ∧
    appendedCols cols =
      cols ++ reportColumns.filter (fun c => !(decide (c ∈ cols))) ∧
    appendedCols (appendedCols cols) =
      appendedCols cols ++ reportColumns.filter
        (fun c => !(decide (c ∈ appendedCols cols))) := by
  refine ⟨?_, ?_, ?_, ?_, ?_, rfl, rfl⟩
  · exact update_excel_existing rA.date rA.callId rA.agentName rA.score
      rA.feedback rA.transcriptFile fs cols rows h
  · exact update_excel_existing rB.date rB.callId rB.agentName rB.score
      rB.feedback rB.transcriptFile (appendedFS fs cols rows rA)
      (appendedCols cols) (rows ++ [rA]) (read_appendedFS fs cols rows rA)
  · simp [reportRows, read_appendedFS]
  · simp [reportRows, read_appendedFS]
  · simp

/-- C7 witness: appending rows for the calls A and B onto a concrete
one-row report. -/
theorem C7_report_append_two_witness :
    reportRows (appendedFS (appendedFS seededFS reportColumns [row0] rowA)
        (appendedCols reportColumns) ([row0] ++ [rowA]) rowB) =
      [row0] ++ [rowA, rowB] ∧
    ([row0] ++ [rowA, rowB]).length = [row0].length + 2 := by
  have h := C7_report_append_two seededFS reportColumns [row0] rfl rowA rowB
  exact ⟨h.2.2.2.1, h.2.2.2.2.1⟩

/-- C8: re-processing the same call identifier twice (two successful runs
of the handler on events carrying the same call_id) appends two report
rows, each complete with all its fields and both keyed by that identifier;
there is no deduplication. -/
theorem C8_duplicate_call_id_two_rows (env1 env2 : Env) (ev : Event) (fs : FS)
    (url cid ag t1 a1 t2 a2 : String)
    (hcall : ev.call_id = some cid) (hag : agentOf ev = ag)
    (hurl : ev.recording_url = some url) (hne : url ≠ "")
    (hhttp1 : ¬(400 ≤ (env1.http_get url).status ∧
      (env1.http_get url).status < 600))
    (hw1 : env1.whisper (env1.http_get url).body = Except.ok t1)
    (hc1 : env1.chat (analyze_prompt t1) = Except.ok a1)
    (hhttp2 : ¬(400 ≤ (env2.http_get url).status ∧
      (env2.http_get url).status < 600))
    (hw2 : env2.whisper (env2.http_get url).body = Except.ok t2)
    (hc2 : env2.chat (analyze_prompt t2) = Except.ok a2)
    (hx : fs.read excelPath = none ∨
          ∃ cols rows, fs.read excelPath = some (FileData.excel cols rows)) :
    reportRows (handle_callyzer_webhook env2 ev
        (handle_callyzer_webhook env1 ev fs).2).2 =
      reportRows fs ++
        [⟨env1.now_date, cid, ag, (parse_analysis env1.loads a1).1,
          (parse_analysis env1.loads a1).2, transcriptPath cid⟩,
         ⟨env2.now_date, cid, ag, (parse_analysis env2.loads a2).1,
          (parse_analysis env2.loads a2).2, transcriptPath cid⟩] := by
  have hcid1 : callIdOf env1 ev = cid := by simp [callIdOf, hcall]
  have hcid2 : callIdOf env2 ev = cid := by simp [callIdOf, hcall]
  have h1 := run_facts env1 ev fs url cid ag t1 a1
    hcid1 hag hurl hne hhttp1 hw1 hc1 hx
  obtain ⟨cols2, hex⟩ := h1.2.2.2.2.1
  have h2 := run_facts env2 ev (handle_callyzer_webhook env1 ev fs).2 url cid
    ag t2 a2 hcid2 hag hurl hne hhttp2 hw2 hc2
    (Or.inr ⟨cols2, _, hex⟩)
  rw [h2.2.2.2.2.2.1, h1.2.2.2.2.2.1, List.append_assoc]
  rfl

/-- C8 witness: two concrete successful runs with the same call identifier
append two rows to an initially empty report. -/
theorem C8_duplicate_call_id_two_rows_witness :
    reportRows (handle_callyzer_webhook jsonEnv okEvent
        (handle_callyzer_webhook okEnv okEvent FS.empty).2).2 =
      [⟨"2025-01-01 10:00:00", "c1", "Alice", Json.str "N/A",
        Json.str "great call", transcriptPath "c1"⟩,
       ⟨"2025-01-01 10:00:00", "c1", "Alice", Json.num 87,
        Json.str "Good empathy", transcriptPath "c1"⟩] :=
  C8_duplicate_call_id_two_rows okEnv jsonEnv okEvent FS.empty
    "http://host/rec" "c1" "Alice" "hello world" "great call"
    "hello world" "great call" rfl rfl rfl (by decide)
    (by decide) rfl rfl (by decide) rfl rfl (Or.inl rfl)

/-- C9 counterexample: the row written to a fresh report has the column
list starting with Date (the dict literal order in src/app.py lines 79 to
86), which differs from the claimed order starting with Call ID. -/
theorem C9_column_order_cex :
    (update_excel "2025-01-01 10:00:00" "c1" "Alice" (Json.num 87)
        (Json.str "ok") "transcripts/c1.txt" FS.empty).map
        (fun fs => fs.read excelPath) =
      Except.ok (some (FileData.excel reportColumns
        [⟨"2025-01-01 10:00:00", "c1", "Alice", Json.num 87, Json.str "ok",
          "transcripts/c1.txt"⟩])) ∧
    reportColumns ≠
      ["Call ID", "Agent Name", "Date", "Score", "Feedback",
       "Transcript File"] :=
  ⟨rfl, by decide⟩

/-- C9 amended: every row written to the cumulative report has the columns
in the order Date, Call ID, Agent Name, Score, Feedback, Transcript File:
a fresh report is created with exactly that column list, and appending to
a report that has it keeps it unchanged. -/
theorem C9_column_order (now cid ag : String) (s f : Json) (tp : String)
    (fs : FS) :
    (fs.read excelPath = none →
      update_excel now cid ag s f tp fs =
        Except.ok ((fs.mkdirs "reports").writeFile excelPath
          (FileData.excel reportColumns [⟨now, cid, ag, s, f, tp⟩]))) ∧
    (∀ rows, fs.read excelPath = some (FileData.excel reportColumns rows) →
      update_excel now cid ag s f tp fs =
        Except.ok ((fs.mkdirs "reports").writeFile excelPath
          (FileData.excel reportColumns (rows ++ [⟨now, cid, ag, s, f, tp⟩])))) := by
  constructor
  · intro h
    exact update_excel_fresh now cid ag s f tp fs h
  · intro rows h
    have h2 := update_excel_existing now cid ag s f tp fs reportColumns rows h
    have hnil : reportColumns.filter
        (fun c => !(decide (c ∈ reportColumns))) = [] := by decide
    rw [h2]
    simp only [appendedFS, appendedCols, hnil, List.append_nil]

/-- C9 witness: the amended column order at a concrete fresh write and a
concrete append. -/
theorem C9_column_order_witness :
    update_excel "2025-01-01 10:00:00" "c1" "Alice" (Json.num 87)
        (Json.str "ok") "transcripts/c1.txt" FS.empty =
      Except.ok ((FS.empty.mkdirs "reports").writeFile excelPath
        (FileData.excel reportColumns
          [⟨"2025-01-01 10:00:00", "c1", "Alice", Json.num 87, Json.str "ok",
            "transcripts/c1.txt"⟩])) ∧
    update_excel "2025-01-01 10:00:00" "c1" "Alice" (Json.num 87)
        (Json.str "ok") "transcripts/c1.txt" seededFS =
      Except.ok ((seededFS.mkdirs "reports").writeFile excelPath
        (FileData.excel reportColumns
          ([row0] ++ [⟨"2025-01-01 10:00:00", "c1", "Alice", Json.num 87,
            Json.str "ok", "transcripts/c1.txt"⟩]))) := by
  constructor
  · exact (C9_column_order "2025-01-01 10:00:00" "c1" "Alice" (Json.num 87)
      (Json.str "ok") "transcripts/c1.txt" FS.empty).1 rfl
  · exact (C9_column_order "2025-01-01 10:00:00" "c1" "Alice" (Json.num 87)
      (Json.str "ok") "transcripts/c1.txt" seededFS).2 [row0] rfl

end AIQABot
